import Mathlib

/-!
Shallow embedding of the Municipal Wallet approval workflow
(apps/cities/models.py, apps/transactions/models.py, apps/transactions/utils.py,
apps/approvals/models.py, apps/approvals/views.py, apps/admin_panel/models.py,
apps/accounts/models.py), together with theorems settling the spec claims.

Money amounts (Django `DecimalField`) are modelled as exact rationals `ℚ`;
timestamps as `Nat`; database rows for one transaction as explicit lists.
-/

/-- Transaction.TRANSACTION_TYPE_CHOICES from apps/transactions/models.py. -/
inductive TxType
  | DEPOSIT
  | WITHDRAWAL
  deriving DecidableEq, Repr

/-- Transaction.STATUS_CHOICES from apps/transactions/models.py. -/
inductive TxStatus
  | PENDING
  | APPROVED
  | REJECTED
  | EXECUTED
  | CANCELLED
  deriving DecidableEq, Repr

/-- BaseApproval.STATUS_CHOICES from apps/approvals/models.py. -/
inductive ApprovalStatus
  | PENDING
  | APPROVED
  | REJECTED
  deriving DecidableEq, Repr

/-- User row (apps/accounts/models.py), restricted to the fields the workflow reads. -/
structure User where
  id : Nat
  full_name : String
  role : String
  is_active : Bool
  deriving DecidableEq, Repr

/-- User.can_approve_requests from apps/accounts/models.py. -/
def User.can_approve_requests (u : User) : Bool :=
  ["APPROVER_1", "APPROVER_2", "APPROVER_3", "APPROVER_4", "APPROVER_5"].contains u.role

/-- User.get_user_by_role from apps/accounts/models.py: the single active user with the
given role; if several exist, the first; if none, `none`. -/
def get_user_by_role (users : List User) (role : String) : Option User :=
  (users.filter (fun u => decide (u.role = role) && u.is_active)).head?

/-- Account row (apps/cities/models.py); only the balance takes part in the workflow. -/
structure Account where
  balance : ℚ
  deriving DecidableEq, Repr

/-- Account.can_withdraw from apps/cities/models.py. -/
def Account.can_withdraw (acct : Account) (amount : ℚ) : Bool :=
  decide (acct.balance ≥ amount)

/-- Account.deposit from apps/cities/models.py. -/
def Account.deposit (acct : Account) (amount : ℚ) : Account :=
  { acct with balance := acct.balance + amount }

/-- Account.withdraw from apps/cities/models.py: the updated account and the
returned boolean. -/
def Account.withdraw (acct : Account) (amount : ℚ) : Account × Bool :=
  if acct.can_withdraw amount then
    ({ acct with balance := acct.balance - amount }, true)
  else
    (acct, false)

/-- Transaction row (apps/transactions/models.py), the fields the workflow touches. -/
structure Transaction where
  id : Nat
  type : TxType
  amount : ℚ
  description : String
  status : TxStatus
  reference : String
  metadata : List (String × String)
  executed_at : Option Nat
  deriving DecidableEq, Repr

/-- Transaction.can_be_cancelled from apps/transactions/models.py. -/
def Transaction.can_be_cancelled (t : Transaction) : Bool :=
  decide (t.status = TxStatus.PENDING)

/-- Transaction.can_be_executed from apps/transactions/models.py. -/
def Transaction.can_be_executed (t : Transaction) : Bool :=
  decide (t.status = TxStatus.APPROVED)

/-- Transaction.execute from apps/transactions/models.py: returns the updated
transaction, the updated account, and the boolean result. -/
def Transaction.execute (t : Transaction) (acct : Account) (now : Nat) :
    Transaction × Account × Bool :=
  if t.can_be_executed then
    match t.type with
    | TxType.DEPOSIT =>
        let acct1 := acct.deposit t.amount
        ({ t with status := TxStatus.EXECUTED, executed_at := some now }, acct1, true)
    | TxType.WITHDRAWAL =>
        let (acct1, ok) := acct.withdraw t.amount
        if ok then
          ({ t with status := TxStatus.EXECUTED, executed_at := some now }, acct1, true)
        else
          (t, acct, false)
  else
    (t, acct, false)

/-- Python dict assignment `metadata[k] = v` on the JSON metadata map. -/
def setKey (m : List (String × String)) (k v : String) : List (String × String) :=
  if m.any (fun p => decide (p.1 = k)) then
    m.map (fun p => if p.1 = k then (k, v) else p)
  else
    m ++ [(k, v)]

/-- Transaction.cancel from apps/transactions/models.py; `reason=None` is `none`,
and the Python truthiness test `if reason:` is `some r` with `r ≠ ""`. -/
def Transaction.cancel (t : Transaction) (reason : Option String) : Transaction × Bool :=
  if t.can_be_cancelled then
    let t1 := { t with status := TxStatus.CANCELLED }
    let t2 :=
      match reason with
      | some r =>
          if r ≠ "" then { t1 with metadata := setKey t1.metadata "cancellation_reason" r }
          else t1
      | none => t1
    (t2, true)
  else
    (t, false)

/-- ApprovalConfiguration.get_required_approvals from apps/admin_panel/models.py:
`config` is the active configuration row's required_approvals when present,
with the static default (3 for deposits, 5 for withdrawals) otherwise. -/
def get_required_approvals (config : Option Nat) (t : TxType) : Nat :=
  match config with
  | some n => n
  | none => if t = TxType.DEPOSIT then 3 else 5

/-- RequestApproval row (apps/approvals/models.py), the fields the workflow touches. -/
structure Approval where
  id : Nat
  approver : User
  status : ApprovalStatus
  comments : Option String
  approved_at : Option Nat
  deriving DecidableEq, Repr

/-- RequestApproval.can_be_processed from apps/approvals/models.py. -/
def Approval.can_be_processed (a : Approval) : Bool :=
  decide (a.status = ApprovalStatus.PENDING)

/-- Result dictionary of get_approval_progress (apps/transactions/utils.py). -/
structure Progress where
  approved : Nat
  rejected : Nat
  pending : Nat
  required : Nat
  total : Nat
  is_complete : Bool
  is_rejected : Bool
  approved_approvers : List String
  rejected_approvers : List String
  pending_approvers : List String
  deriving DecidableEq, Repr

/-- get_approval_progress from apps/transactions/utils.py (RequestApproval branch),
as a pure function of the transaction's approval rows and the resolved
required-approval-count (the source resolves the latter through
`get_required_approvals`). -/
def get_approval_progress (approvals : List Approval) (required_count : Nat) : Progress :=
  let approved_list := approvals.filter (fun a => decide (a.status = ApprovalStatus.APPROVED))
  let rejected_list := approvals.filter (fun a => decide (a.status = ApprovalStatus.REJECTED))
  let pending_list := approvals.filter (fun a => decide (a.status = ApprovalStatus.PENDING))
  { approved := approved_list.length
    rejected := rejected_list.length
    pending := pending_list.length
    required := required_count
    total := approvals.length
    is_complete := decide (approved_list.length ≥ required_count)
    is_rejected := decide (rejected_list.length > 0)
    approved_approvers := approved_list.map (fun a => a.approver.full_name)
    rejected_approvers := rejected_list.map (fun a => a.approver.full_name)
    pending_approvers := pending_list.map (fun a => a.approver.full_name) }

/-- Database state surrounding one transaction: its row, its account row, its
RequestApproval rows, and the active ApprovalConfiguration row for its type. -/
structure TxState where
  tx : Transaction
  account : Account
  approvals : List Approval
  config : Option Nat
  deriving DecidableEq, Repr

/-- check_transaction_status from apps/transactions/utils.py, as a state
transformer (the saved status is `(check_transaction_status s now).tx.status`). -/
def check_transaction_status (s : TxState) (now : Nat) : TxState :=
  let required := get_required_approvals s.config s.tx.type
  let progress := get_approval_progress s.approvals required
  if progress.is_rejected then
    { s with tx := { s.tx with status := TxStatus.REJECTED } }
  else if progress.is_complete then
    let t1 := { s.tx with status := TxStatus.APPROVED }
    if t1.can_be_executed then
      let r := t1.execute s.account now
      if r.2.2 then
        { s with tx := { r.1 with status := TxStatus.EXECUTED }, account := r.2.1 }
      else
        { s with tx := r.1, account := r.2.1 }
    else
      { s with tx := t1 }
  else
    { s with tx := { s.tx with status := TxStatus.PENDING } }

/-- BaseApproval.approve / BaseApproval.reject from apps/approvals/models.py,
with the decided status as a parameter (`APPROVED` for approve, `REJECTED` for
reject); both methods are otherwise identical: guard on the record being
PENDING, defensively re-check that the approver has no other decided record for
this transaction, write status/comments/approved_at, then synchronously run
check_transaction_status on the parent transaction. -/
def base_decide (s : TxState) (a : Approval) (new_status : ApprovalStatus)
    (comments : Option String) (now : Nat) : TxState × Bool :=
  if a.status ≠ ApprovalStatus.PENDING then
    (s, false)
  else if s.approvals.any (fun b =>
      decide (b.approver.id = a.approver.id ∧ b.status ≠ ApprovalStatus.PENDING ∧ b.id ≠ a.id)) then
    (s, false)
  else
    let a1 := { a with status := new_status, comments := comments, approved_at := some now }
    let s1 := { s with approvals := s.approvals.map (fun b => if b.id = a.id then a1 else b) }
    (check_transaction_status s1 now, true)

/-- Outcome of RequestApprovalView.update (apps/approvals/views.py), one
constructor per HTTP response the handler can produce. -/
inductive DecideOutcome
  | notFound
  | alreadyDecided
  | cannotProcess
  | insufficientBalance
  | invalidAction
  | success
  | failed
  deriving DecidableEq, Repr

/-- RequestApprovalView.get_object: the record with the requested pk drawn from
the queryset filtered to the requesting approver's PENDING records. -/
def find_object (approvals : List Approval) (approval_id approver_id : Nat) : Option Approval :=
  (approvals.filter (fun a =>
    decide (a.id = approval_id ∧ a.approver.id = approver_id ∧ a.status = ApprovalStatus.PENDING))).head?

/-- RequestApprovalView.update from apps/approvals/views.py: the decide endpoint
of the any-order approval system. -/
def request_approval_update (s : TxState) (approval_id approver_id : Nat)
    (action : String) (comments : Option String) (now : Nat) : TxState × DecideOutcome :=
  match find_object s.approvals approval_id approver_id with
  | none => (s, DecideOutcome.notFound)
  | some approval =>
    if s.approvals.any (fun b =>
        decide (b.approver.id = approver_id ∧ b.status ≠ ApprovalStatus.PENDING)) then
      (s, DecideOutcome.alreadyDecided)
    else if ¬ approval.can_be_processed then
      (s, DecideOutcome.cannotProcess)
    else if action = "approve" then
      if s.tx.type = TxType.WITHDRAWAL ∧ ¬ s.account.can_withdraw s.tx.amount then
        (s, DecideOutcome.insufficientBalance)
      else
        let r := base_decide s approval ApprovalStatus.APPROVED comments now
        (r.1, if r.2 then DecideOutcome.success else DecideOutcome.failed)
    else if action = "reject" then
      let r := base_decide s approval ApprovalStatus.REJECTED comments now
      (r.1, if r.2 then DecideOutcome.success else DecideOutcome.failed)
    else
      (s, DecideOutcome.invalidAction)

/-- Loop body of the settings-based fallback in create_request_approvals
(apps/transactions/utils.py): look up one user per role APPROVER_i for the
given level indices, failing on the first missing role. -/
def legacy_resolve_aux (users : List User) : List Nat → Except String (List User)
  | [] => Except.ok []
  | i :: rest =>
    match get_user_by_role users ("APPROVER_" ++ toString i) with
    | none => Except.error ("APPROVER_" ++ toString i ++ " must be configured in the system")
    | some u =>
      match legacy_resolve_aux users rest with
      | Except.ok l => Except.ok (u :: l)
      | Except.error e => Except.error e

/-- Settings-based fallback roster of create_request_approvals: one user per
role APPROVER_1 .. APPROVER_required. -/
def legacy_resolve (users : List User) (required : Nat) : Except String (List User) :=
  legacy_resolve_aux users ((List.range required).map (fun i => i + 1))

/-- Fallback pool of create_request_approvals (apps/transactions/utils.py):
active approver-capable users not already among the assigned approvers. -/
def eligible_fallback (assignments users : List User) : List User :=
  users.filter (fun u =>
    u.can_approve_requests && u.is_active
      && !((assignments.map (fun v => v.id)).contains u.id))

/-- Dynamic-configuration roster resolution inside the `try` block of
create_request_approvals (apps/transactions/utils.py): active assignments,
padded with active approver-capable users not already included until the
required count is met, erroring when the pool stays short. -/
def dynamic_resolve (ttype : TxType) (config : Option Nat)
    (assignments : List User) (users : List User) : Except String (List User) :=
  let required_count := get_required_approvals config ttype
  let approvers :=
    if assignments.length < required_count then
      assignments ++ (eligible_fallback assignments users).take
        (required_count - assignments.length)
    else
      assignments
  if approvers.length < required_count then
    Except.error "Not enough active approvers assigned"
  else
    Except.ok approvers

/-- create_request_approvals from apps/transactions/utils.py. `assignments` is
ApproverAssignment.get_approvers_for_transaction_type (the active assignments'
approvers), `users` the User table, and the two settings parameters are
DEPOSIT_APPROVALS_REQUIRED / WITHDRAWAL_APPROVALS_REQUIRED. The `except
Exception` around the dynamic path catches the ValueError the path itself
raises, so an insufficient dynamic pool falls through to the settings-based
fixed-role roster. On success, one PENDING record per resolved approver is
bulk-created. -/
def create_request_approvals (ttype : TxType) (config : Option Nat)
    (assignments : List User) (users : List User)
    (deposit_required_setting withdrawal_required_setting : Nat) :
    Except String (List Approval) :=
  let resolved : Except String (List User) :=
    match dynamic_resolve ttype config assignments users with
    | Except.ok l => Except.ok l
    | Except.error _ =>
      let required_count :=
        match ttype with
        | TxType.DEPOSIT => deposit_required_setting
        | TxType.WITHDRAWAL => withdrawal_required_setting
      legacy_resolve users required_count
  match resolved with
  | Except.error e => Except.error e
  | Except.ok approvers =>
    Except.ok (approvers.enum.map (fun p =>
      { id := p.1, approver := p.2, status := ApprovalStatus.PENDING,
        comments := none, approved_at := none }))

/-- Number of approval records a create_request_approvals result persists, or
`none` when creation failed (no record is persisted at all in that case, since
the bulk insert is the final step). -/
def created_count : Except String (List Approval) → Option Nat
  | Except.ok l => some l.length
  | Except.error _ => none

/-- cancel_transaction view (apps/transactions/views.py) at the state level: it
only invokes Transaction.cancel on the transaction row; approval records and
the account are not touched. -/
def cancel_transaction (s : TxState) (reason : Option String) : TxState × Bool :=
  let r := s.tx.cancel reason
  ({ s with tx := r.1 }, r.2)

/-- Success flag of a roster resolution result. -/
def resolver_ok : Except String (List User) → Bool
  | Except.ok _ => true
  | Except.error _ => false

/-- Active approver with the given id and role, for concrete scenarios. -/
def mkApprover (n : Nat) (r : String) : User :=
  { id := n, full_name := "Approver " ++ toString n, role := r, is_active := true }

/-- Approval record in the given status, for concrete scenarios. -/
def mkApproval (i uid : Nat) (st : ApprovalStatus) : Approval :=
  { id := i, approver := mkApprover uid "APPROVER_1", status := st,
    comments := none, approved_at := none }

/-- An already EXECUTED deposit of 100 whose three approval records are all
APPROVED (required count 3) and whose account holds the post-execution
balance 200. -/
def executed_deposit_state : TxState :=
  { tx := { id := 1, type := TxType.DEPOSIT, amount := 100, description := "road fund",
            status := TxStatus.EXECUTED, reference := "DEP-000001", metadata := [],
            executed_at := some 1 },
    account := { balance := 200 },
    approvals := [mkApproval 1 11 ApprovalStatus.APPROVED,
                  mkApproval 2 12 ApprovalStatus.APPROVED,
                  mkApproval 3 13 ApprovalStatus.APPROVED],
    config := some 3 }

/-- A CANCELLED deposit whose three approval records are still PENDING
(required count 3). -/
def cancelled_deposit_state : TxState :=
  { tx := { id := 2, type := TxType.DEPOSIT, amount := 100, description := "road fund",
            status := TxStatus.CANCELLED, reference := "DEP-000002", metadata := [],
            executed_at := none },
    account := { balance := 200 },
    approvals := [mkApproval 1 11 ApprovalStatus.PENDING,
                  mkApproval 2 12 ApprovalStatus.PENDING,
                  mkApproval 3 13 ApprovalStatus.PENDING],
    config := some 3 }

/-- A freshly created PENDING deposit of 100 with three PENDING approval
records (required count 3). -/
def pending_deposit_state : TxState :=
  { tx := { id := 3, type := TxType.DEPOSIT, amount := 100, description := "road fund",
            status := TxStatus.PENDING, reference := "DEP-000003", metadata := [],
            executed_at := none },
    account := { balance := 0 },
    approvals := [mkApproval 1 11 ApprovalStatus.PENDING,
                  mkApproval 2 12 ApprovalStatus.PENDING,
                  mkApproval 3 13 ApprovalStatus.PENDING],
    config := some 3 }

/-- The pending deposit after the initiator cancels it. -/
def cancelled_after_pending : TxState :=
  (cancel_transaction pending_deposit_state (some "entered in error")).1

/-- User table with exactly three active approver-capable users, one per role
APPROVER_1 .. APPROVER_3. -/
def three_approver_users : List User :=
  [mkApprover 1 "APPROVER_1", mkApprover 2 "APPROVER_2", mkApprover 3 "APPROVER_3"]

/-- Four active approver-capable users, one per role APPROVER_1 .. APPROVER_4,
all four assigned as approvers. -/
def four_assigned_approvers : List User :=
  [mkApprover 1 "APPROVER_1", mkApprover 2 "APPROVER_2",
   mkApprover 3 "APPROVER_3", mkApprover 4 "APPROVER_4"]

/-- A PENDING deposit whose approval set holds one APPROVED, one REJECTED and
one PENDING record (required count 3). -/
def rejected_mix_state : TxState :=
  { tx := { id := 4, type := TxType.DEPOSIT, amount := 100, description := "road fund",
            status := TxStatus.PENDING, reference := "DEP-000004", metadata := [],
            executed_at := none },
    account := { balance := 40 },
    approvals := [mkApproval 1 11 ApprovalStatus.APPROVED,
                  mkApproval 2 12 ApprovalStatus.REJECTED,
                  mkApproval 3 13 ApprovalStatus.PENDING],
    config := some 3 }

/-- An APPROVED withdrawal of 50 against an account holding only 30. -/
def insufficient_withdrawal_tx : Transaction :=
  { id := 5, type := TxType.WITHDRAWAL, amount := 50, description := "supplies",
    status := TxStatus.APPROVED, reference := "WTH-000001", metadata := [],
    executed_at := none }

/-- A PENDING withdrawal of 50 on an account holding 30, with three PENDING
approval records (required count 3). -/
def short_withdrawal_state : TxState :=
  { tx := { id := 6, type := TxType.WITHDRAWAL, amount := 50, description := "supplies",
            status := TxStatus.PENDING, reference := "WTH-000002", metadata := [],
            executed_at := none },
    account := { balance := 30 },
    approvals := [mkApproval 1 11 ApprovalStatus.PENDING,
                  mkApproval 2 12 ApprovalStatus.PENDING,
                  mkApproval 3 13 ApprovalStatus.PENDING],
    config := some 3 }

/-- C1: re-running check_transaction_status on a terminal transaction is NOT
idempotent in the code. On the EXECUTED deposit of 100 whose approval set
still satisfies approvedCount ≥ requiredCount, a second invocation resets the
status to APPROVED, re-enters Transaction.execute, and credits the account a
second time: the balance moves from 200 to 300 (the status ends EXECUTED
again). On a CANCELLED transaction with all records PENDING, the recomputation
moves the status back to PENDING. Both refute the claimed idempotence. -/
theorem check_transaction_status_not_idempotent_on_terminal :
    executed_deposit_state.tx.status = TxStatus.EXECUTED
    ∧ executed_deposit_state.account.balance = 200
    ∧ (check_transaction_status executed_deposit_state 5).account.balance = 300
    ∧ (check_transaction_status executed_deposit_state 5).tx.status = TxStatus.EXECUTED
    ∧ cancelled_deposit_state.tx.status = TxStatus.CANCELLED
    ∧ (check_transaction_status cancelled_deposit_state 5).tx.status = TxStatus.PENDING := by
  refine ⟨rfl, by norm_num [executed_deposit_state], ?_, ?_, rfl, ?_⟩ <;>
    simp [check_transaction_status, get_approval_progress, get_required_approvals,
      Transaction.execute, Transaction.can_be_executed, Account.deposit,
      executed_deposit_state, cancelled_deposit_state, mkApproval, mkApprover] <;>
    norm_num

/-- C4: after a PENDING transaction is cancelled, approval decisions on its
records are NOT refused by the code. The decide endpoint has no check of the
parent transaction's status: on the cancelled deposit, approving record 1
returns success, flips the record to APPROVED, and the synchronous
recomputation then moves the transaction from CANCELLED back to PENDING. -/
theorem approval_decision_succeeds_after_cancellation :
    cancelled_after_pending.tx.status = TxStatus.CANCELLED
    ∧ (request_approval_update cancelled_after_pending 1 11 "approve" none 5).2
        = DecideOutcome.success
    ∧ (request_approval_update cancelled_after_pending 1 11 "approve" none 5).1.approvals.map
        (fun a => a.status)
        = [ApprovalStatus.APPROVED, ApprovalStatus.PENDING, ApprovalStatus.PENDING]
    ∧ (request_approval_update cancelled_after_pending 1 11 "approve" none 5).1.tx.status
        = TxStatus.PENDING := by
  decide

/-- C6: when the dynamic approver pool (active assignments plus fallback
approver-capable users) is smaller than the required-approval-count, the
ValueError raised inside the `try` block is swallowed by the surrounding
`except Exception`, and creation silently proceeds through the settings-based
fixed-role roster instead of failing. With configuration requiring 5 deposit
approvals and only three active approver users, the dynamic resolver errors,
yet create_request_approvals succeeds and persists 3 records. -/
theorem insufficient_pool_falls_back_to_legacy_roster :
    resolver_ok (dynamic_resolve TxType.DEPOSIT (some 5) [] three_approver_users) = false
    ∧ created_count
        (create_request_approvals TxType.DEPOSIT (some 5) [] three_approver_users 3 5)
        = some 3 := by
  decide

/-- C3 counterexample: the number of created approval records can exceed the
resolved required-approval-count. With required count 3 and four active
assignments, create_request_approvals persists one record per assignment: 4
records, not 3. -/
theorem approval_set_size_exceeds_required_count :
    get_required_approvals (some 3) TxType.DEPOSIT = 3
    ∧ created_count
        (create_request_approvals TxType.DEPOSIT (some 3) four_assigned_approvers
          four_assigned_approvers 3 5)
        = some 4 := by
  decide

/-- C8: Account Ledger contract. can_withdraw is true exactly when
balance ≥ amount; deposit adds the amount to the balance; withdraw succeeds
exactly when balance ≥ amount, subtracting the amount then and leaving the
balance unchanged otherwise. -/
theorem account_ledger_contract (acct : Account) (amount : ℚ) :
    (acct.can_withdraw amount = true ↔ acct.balance ≥ amount)
    ∧ (acct.deposit amount).balance = acct.balance + amount
    ∧ ((acct.withdraw amount).2 = true ↔ acct.balance ≥ amount)
    ∧ (acct.withdraw amount).1.balance =
        (if acct.balance ≥ amount then acct.balance - amount else acct.balance) := by
  unfold Account.withdraw Account.deposit Account.can_withdraw
  by_cases h : acct.balance ≥ amount <;> simp [h]

/-- C5: Transaction.execute failure cases. For an APPROVED WITHDRAWAL whose
amount exceeds the balance, execute returns false and changes neither the
transaction (status stays APPROVED, executed_at untouched) nor the account;
invoked on a transaction whose status is not APPROVED it returns false with no
state change. -/
theorem execute_failure_leaves_state_unchanged (t : Transaction) (acct : Account) (now : Nat) :
    (t.status = TxStatus.APPROVED → t.type = TxType.WITHDRAWAL →
      acct.balance < t.amount → t.execute acct now = (t, acct, false))
    ∧ (t.status ≠ TxStatus.APPROVED → t.execute acct now = (t, acct, false)) := by
  constructor
  · intro h1 h2 h3
    unfold Transaction.execute
    simp [Transaction.can_be_executed, h1, h2, Account.withdraw, Account.can_withdraw,
      not_le.mpr h3]
  · intro h
    unfold Transaction.execute
    simp [Transaction.can_be_executed, h]

/-- C2: rejection dominance. Whenever the approval set holds at least one
REJECTED record, check_transaction_status sets the transaction status to
REJECTED and leaves the account (and the approval records) untouched,
whatever the other records hold and even when approvedCount ≥ requiredCount. -/
theorem rejected_approval_forces_rejected_status (s : TxState) (now : Nat)
    (h : ∃ a ∈ s.approvals, a.status = ApprovalStatus.REJECTED) :
    (check_transaction_status s now).tx.status = TxStatus.REJECTED
    ∧ (check_transaction_status s now).account = s.account
    ∧ (check_transaction_status s now).approvals = s.approvals := by
  obtain ⟨a, ha, hst⟩ := h
  have hmem : a ∈ s.approvals.filter (fun b => decide (b.status = ApprovalStatus.REJECTED)) :=
    List.mem_filter.mpr ⟨ha, by simp [hst]⟩
  have hrej : (get_approval_progress s.approvals
      (get_required_approvals s.config s.tx.type)).is_rejected = true := by
    unfold get_approval_progress
    simp only [gt_iff_lt, decide_eq_true_eq]
    exact List.length_pos.mpr (List.ne_nil_of_mem hmem)
  unfold check_transaction_status
  simp [hrej]

/-- Witness for C5: the approved withdrawal of 50 against balance 30, and a
PENDING (non-APPROVED) deposit. -/
theorem execute_failure_witness :
    insufficient_withdrawal_tx.execute { balance := 30 } 7
      = (insufficient_withdrawal_tx, { balance := 30 }, false)
    ∧ pending_deposit_state.tx.execute { balance := 30 } 7
      = (pending_deposit_state.tx, { balance := 30 }, false) :=
  ⟨(execute_failure_leaves_state_unchanged _ _ _).1 rfl rfl
      (by norm_num [insufficient_withdrawal_tx]),
   (execute_failure_leaves_state_unchanged _ _ _).2 (by decide)⟩

/-- Witness for C2 at a concrete mixed approval set. -/
theorem rejected_approval_witness :
    (check_transaction_status rejected_mix_state 9).tx.status = TxStatus.REJECTED
    ∧ (check_transaction_status rejected_mix_state 9).account = rejected_mix_state.account
    ∧ (check_transaction_status rejected_mix_state 9).approvals
        = rejected_mix_state.approvals :=
  rejected_approval_forces_rejected_status rejected_mix_state 9
    ⟨mkApproval 2 12 ApprovalStatus.REJECTED, by decide, rfl⟩

/-- C9: the progress aggregator is a pure function returning the counts of
records in each status, the per-bucket approver name lists, the echoed
required count and total, is_complete = (approvedCount ≥ requiredCount) and
is_rejected true exactly when some record is REJECTED. -/
theorem get_approval_progress_spec (approvals : List Approval) (required_count : Nat) :
    (get_approval_progress approvals required_count).approved
        = approvals.countP (fun a => decide (a.status = ApprovalStatus.APPROVED))
    ∧ (get_approval_progress approvals required_count).rejected
        = approvals.countP (fun a => decide (a.status = ApprovalStatus.REJECTED))
    ∧ (get_approval_progress approvals required_count).pending
        = approvals.countP (fun a => decide (a.status = ApprovalStatus.PENDING))
    ∧ (get_approval_progress approvals required_count).required = required_count
    ∧ (get_approval_progress approvals required_count).total = approvals.length
    ∧ ((get_approval_progress approvals required_count).is_complete = true ↔
        required_count ≤ (get_approval_progress approvals required_count).approved)
    ∧ ((get_approval_progress approvals required_count).is_rejected = true ↔
        ∃ a ∈ approvals, a.status = ApprovalStatus.REJECTED)
    ∧ (get_approval_progress approvals required_count).approved_approvers
        = (approvals.filter (fun a => decide (a.status = ApprovalStatus.APPROVED))).map
            (fun a => a.approver.full_name)
    ∧ (get_approval_progress approvals required_count).rejected_approvers
        = (approvals.filter (fun a => decide (a.status = ApprovalStatus.REJECTED))).map
            (fun a => a.approver.full_name)
    ∧ (get_approval_progress approvals required_count).pending_approvers
        = (approvals.filter (fun a => decide (a.status = ApprovalStatus.PENDING))).map
            (fun a => a.approver.full_name) := by
  unfold get_approval_progress
  refine ⟨(List.countP_eq_length_filter _ _).symm, (List.countP_eq_length_filter _ _).symm,
    (List.countP_eq_length_filter _ _).symm, rfl, rfl, by simp, ?_, rfl, rfl, rfl⟩
  simp only [gt_iff_lt, decide_eq_true_eq, List.length_pos, ne_eq,
    List.filter_eq_nil_iff, decide_eq_true_eq, not_forall]
  constructor
  · intro h
    push_neg at h
    obtain ⟨a, ha, hst⟩ := h
    exact ⟨a, ha, hst⟩
  · rintro ⟨a, ha, hst⟩
    exact ⟨a, ha, not_not.mpr hst⟩

/-- C10: Transaction.cancel on a non-PENDING transaction returns false and
changes nothing; on a PENDING transaction it returns true, sets CANCELLED,
stores a supplied reason under metadata key "cancellation_reason" (a reason is
supplied when it passes the Python truthiness test, i.e. it is a non-empty
string), touches the metadata only when a reason was supplied (metadata
unchanged when none is, and unchanged on the empty string, which Python treats
as no reason), and leaves every other transaction field, the approval records
and the account unchanged. -/
theorem cancel_spec (s : TxState) (reason : Option String) :
    (s.tx.status ≠ TxStatus.PENDING → cancel_transaction s reason = (s, false))
    ∧ (s.tx.status = TxStatus.PENDING →
        (cancel_transaction s reason).2 = true
        ∧ (cancel_transaction s reason).1.tx.status = TxStatus.CANCELLED
        ∧ ((cancel_transaction s reason).1.tx.metadata ≠ s.tx.metadata → reason ≠ none)
        ∧ (reason = none → (cancel_transaction s reason).1.tx.metadata = s.tx.metadata)
        ∧ (∀ r, reason = some r → r ≠ "" →
            (cancel_transaction s reason).1.tx.metadata
              = setKey s.tx.metadata "cancellation_reason" r)
        ∧ (reason = some "" →
            (cancel_transaction s reason).1.tx.metadata = s.tx.metadata)
        ∧ (cancel_transaction s reason).1.tx.id = s.tx.id
        ∧ (cancel_transaction s reason).1.tx.type = s.tx.type
        ∧ (cancel_transaction s reason).1.tx.amount = s.tx.amount
        ∧ (cancel_transaction s reason).1.tx.description = s.tx.description
        ∧ (cancel_transaction s reason).1.tx.reference = s.tx.reference
        ∧ (cancel_transaction s reason).1.tx.executed_at = s.tx.executed_at
        ∧ (cancel_transaction s reason).1.account = s.account
        ∧ (cancel_transaction s reason).1.approvals = s.approvals) := by
  constructor
  · intro h
    unfold cancel_transaction Transaction.cancel
    simp [Transaction.can_be_cancelled, h]
  · intro h
    unfold cancel_transaction Transaction.cancel
    cases reason with
    | none => simp [Transaction.can_be_cancelled, h]
    | some r =>
      by_cases hr : r = ""
      · simp [Transaction.can_be_cancelled, h, hr]
      · simp [Transaction.can_be_cancelled, h, hr]

/-- Witness for C10 on the concrete pending deposit with a reason supplied. -/
theorem cancel_spec_witness :
    (cancel_transaction pending_deposit_state (some "entered in error")).2 = true
    ∧ (cancel_transaction pending_deposit_state (some "entered in error")).1.tx.status
        = TxStatus.CANCELLED
    ∧ ((cancel_transaction pending_deposit_state (some "entered in error")).1.tx.metadata
        ≠ pending_deposit_state.tx.metadata → (some "entered in error" : Option String) ≠ none)
    ∧ ((some "entered in error" : Option String) = none →
        (cancel_transaction pending_deposit_state (some "entered in error")).1.tx.metadata
          = pending_deposit_state.tx.metadata)
    ∧ (∀ r, (some "entered in error" : Option String) = some r → r ≠ "" →
        (cancel_transaction pending_deposit_state (some "entered in error")).1.tx.metadata
          = setKey pending_deposit_state.tx.metadata "cancellation_reason" r)
    ∧ ((some "entered in error" : Option String) = some "" →
        (cancel_transaction pending_deposit_state (some "entered in error")).1.tx.metadata
          = pending_deposit_state.tx.metadata)
    ∧ (cancel_transaction pending_deposit_state (some "entered in error")).1.tx.id
        = pending_deposit_state.tx.id
    ∧ (cancel_transaction pending_deposit_state (some "entered in error")).1.tx.type
        = pending_deposit_state.tx.type
    ∧ (cancel_transaction pending_deposit_state (some "entered in error")).1.tx.amount
        = pending_deposit_state.tx.amount
    ∧ (cancel_transaction pending_deposit_state (some "entered in error")).1.tx.description
        = pending_deposit_state.tx.description
    ∧ (cancel_transaction pending_deposit_state (some "entered in error")).1.tx.reference
        = pending_deposit_state.tx.reference
    ∧ (cancel_transaction pending_deposit_state (some "entered in error")).1.tx.executed_at
        = pending_deposit_state.tx.executed_at
    ∧ (cancel_transaction pending_deposit_state (some "entered in error")).1.account
        = pending_deposit_state.account
    ∧ (cancel_transaction pending_deposit_state (some "entered in error")).1.approvals
        = pending_deposit_state.approvals :=
  (cancel_spec pending_deposit_state (some "entered in error")).2 rfl

/-- Helper: a record returned by the decide endpoint's object lookup belongs
to the approval set, carries the requested id and approver, and is PENDING. -/
theorem find_object_spec {approvals : List Approval} {approval_id approver_id : Nat}
    {a : Approval} (h : find_object approvals approval_id approver_id = some a) :
    a ∈ approvals ∧ a.id = approval_id ∧ a.approver.id = approver_id
      ∧ a.status = ApprovalStatus.PENDING := by
  unfold find_object at h
  have hmem := List.mem_of_mem_head? h
  have := (List.mem_filter.mp hmem).2
  simp only [decide_eq_true_eq] at this
  exact ⟨(List.mem_filter.mp hmem).1, this.1, this.2.1, this.2.2⟩

/-- C7: decision-time balance check. In a reachable state (the addressed
record exists and the approver has no decided record), approving a WITHDRAWAL
whose amount exceeds the balance fails with InsufficientBalance and changes
nothing, while approve on a DEPOSIT and reject never produce
InsufficientBalance. -/
theorem withdrawal_approve_balance_check (s : TxState) (approval_id approver_id : Nat)
    (a : Approval) (comments : Option String) (now : Nat)
    (hfound : find_object s.approvals approval_id approver_id = some a)
    (hclean : ∀ b ∈ s.approvals, b.approver.id = approver_id →
      b.status = ApprovalStatus.PENDING) :
    (s.tx.type = TxType.WITHDRAWAL → s.account.balance < s.tx.amount →
      request_approval_update s approval_id approver_id "approve" comments now
        = (s, DecideOutcome.insufficientBalance))
    ∧ (s.tx.type = TxType.DEPOSIT →
      (request_approval_update s approval_id approver_id "approve" comments now).2
        ≠ DecideOutcome.insufficientBalance)
    ∧ (request_approval_update s approval_id approver_id "reject" comments now).2
        ≠ DecideOutcome.insufficientBalance := by
  obtain ⟨hamem, haid, haap, hast⟩ := find_object_spec hfound
  have hnone : ¬ ∃ x ∈ s.approvals, x.approver.id = approver_id
      ∧ ¬ x.status = ApprovalStatus.PENDING := by
    rintro ⟨x, hx, hxid, hxst⟩
    exact hxst (hclean x hx hxid)
  refine ⟨?_, ?_, ?_⟩
  · intro htype hbal
    have hcw : s.account.can_withdraw s.tx.amount = false := by
      simp only [Account.can_withdraw, decide_eq_false_iff_not, not_le, ge_iff_le]
      exact hbal
    simp [request_approval_update, hfound, hnone, Approval.can_be_processed, hast, htype, hcw]
  · intro htype
    cases hb : (base_decide s a ApprovalStatus.APPROVED comments now).2 <;>
      simp [request_approval_update, hfound, hnone, Approval.can_be_processed, hast, htype, hb]
  · cases hb : (base_decide s a ApprovalStatus.REJECTED comments now).2 <;>
      simp [request_approval_update, hfound, hnone, Approval.can_be_processed, hast, hb]

/-- Witness for C7 on the concrete withdrawal of 50 against balance 30. -/
theorem withdrawal_approve_balance_check_witness :
    request_approval_update short_withdrawal_state 1 11 "approve" none 5
      = (short_withdrawal_state, DecideOutcome.insufficientBalance) :=
  (withdrawal_approve_balance_check short_withdrawal_state 1 11
      (mkApproval 1 11 ApprovalStatus.PENDING) none 5 (by decide) (by decide)).1
    rfl (by norm_num [short_withdrawal_state])

/-- C3 (amended): when the dynamic pool (assignments plus eligible fallback
approvers) covers the required-approval-count, creation succeeds and persists
max(assignments, required) records - the number of active assignments when
that already meets the required count, exactly the required count otherwise -
and every record starts PENDING. -/
theorem create_request_approvals_sizes (ttype : TxType) (config : Option Nat)
    (assignments users : List User) (dr wr : Nat)
    (hpool : get_required_approvals config ttype ≤
      assignments.length + (eligible_fallback assignments users).length) :
    ∃ l, create_request_approvals ttype config assignments users dr wr = Except.ok l
      ∧ l.length = max assignments.length (get_required_approvals config ttype)
      ∧ ∀ a ∈ l, a.status = ApprovalStatus.PENDING := by
  have hdyn : ∃ apps, dynamic_resolve ttype config assignments users = Except.ok apps
      ∧ apps.length = max assignments.length (get_required_approvals config ttype) := by
    unfold dynamic_resolve
    by_cases hlt : assignments.length < get_required_approvals config ttype
    · have hlen : (assignments ++ (eligible_fallback assignments users).take
          (get_required_approvals config ttype - assignments.length)).length
          = get_required_approvals config ttype := by
        rw [List.length_append, List.length_take]
        have h1 : get_required_approvals config ttype - assignments.length
            ≤ (eligible_fallback assignments users).length := by omega
        rw [min_eq_left h1]
        omega
      refine ⟨assignments ++ (eligible_fallback assignments users).take
        (get_required_approvals config ttype - assignments.length), ?_, ?_⟩
      · simp [if_pos hlt, hlen, lt_irrefl]
      · rw [hlen]
        exact (Nat.max_eq_right (le_of_lt hlt)).symm
    · refine ⟨assignments, ?_, ?_⟩
      · simp only [if_neg hlt]
      · exact (Nat.max_eq_left (le_of_not_lt hlt)).symm
  obtain ⟨apps, heq, hlen⟩ := hdyn
  unfold create_request_approvals
  rw [heq]
  refine ⟨_, rfl, ?_, ?_⟩
  · rw [List.length_map, List.enum_length]
    exact hlen
  · intro a ha
    simp only [List.mem_map] at ha
    obtain ⟨p, hp, rfl⟩ := ha
    rfl

/-- Witness for C3 (amended): two assignments, required count 3, one
fallback approver. -/
theorem create_request_approvals_sizes_witness :
    ∃ l, create_request_approvals TxType.DEPOSIT (some 3) (three_approver_users.take 2)
        three_approver_users 3 5 = Except.ok l
      ∧ l.length = max (three_approver_users.take 2).length
          (get_required_approvals (some 3) TxType.DEPOSIT)
      ∧ ∀ a ∈ l, a.status = ApprovalStatus.PENDING :=
  create_request_approvals_sizes _ _ _ _ _ _ (by decide)
